import Mathlib

/-!
Shallow embedding of the FactureSimple invoicing application (src/src/App.tsx):
invoice numbering, draft/finalized lifecycle, payment-due date arithmetic,
line-item updates, and the PDF pagination engine, together with theorems
checking the specification claims against these definitions.
-/

namespace FS

set_option maxRecDepth 16384

/-! ### String helpers modelling the JavaScript primitives used by the source -/

/-- Splits a character list on a separator character, modelling JavaScript
`String.prototype.split` with a one-character separator (the source only
splits on a dash or a space).  Always returns at least one segment. -/
def splitOnChar (c : Char) : List Char → List Char → List (List Char)
  | [], acc => [acc.reverse]
  | x :: xs, acc =>
    if x = c then acc.reverse :: splitOnChar c xs []
    else splitOnChar c xs (x :: acc)

/-- The value of a list of decimal digit characters. -/
def digitsVal (cs : List Char) : Nat :=
  cs.foldl (fun a c => a * 10 + (c.toNat - 48)) 0

/-- Models JavaScript `parseInt(s)` (radix 10): skip leading spaces, read an
optional sign and then the longest leading run of decimal digits, ignoring
any trailing characters; `none` models the `NaN` result. -/
def jsParseInt (cs : List Char) : Option Int :=
  let cs := cs.dropWhile (fun c => c = ' ')
  match cs with
  | '-' :: rest =>
    let ds := rest.takeWhile Char.isDigit
    if ds.isEmpty then none else some (-(digitsVal ds : Int))
  | '+' :: rest =>
    let ds := rest.takeWhile Char.isDigit
    if ds.isEmpty then none else some (digitsVal ds : Int)
  | _ =>
    let ds := cs.takeWhile Char.isDigit
    if ds.isEmpty then none else some (digitsVal ds : Int)

/-- Models JavaScript `String.prototype.padStart(w, c)`. -/
def padStart (w : Nat) (c : Char) (s : String) : String :=
  String.mk (List.replicate (w - s.length) c) ++ s

/-- Models JavaScript `String.prototype.startsWith`. -/
def strStartsWith (s pre : String) : Bool :=
  List.isPrefixOf pre.data s.data

/-- Ascending insertion into a sorted list of integers. -/
def insertSorted (x : Int) : List Int → List Int
  | [] => [x]
  | y :: ys => if x ≤ y then x :: y :: ys else y :: insertSorted x ys

/-- Ascending insertion sort, modelling the source `sort((a, b) => a - b)`
on the extracted sequence numbers. -/
def sortInts : List Int → List Int
  | [] => []
  | x :: xs => insertSorted x (sortInts xs)

/-! ### Invoice numbering authority (`generateSmartInvoiceNumber`, App.tsx 1775-1813) -/

/-- Invoice status, the `'draft' | 'finalized'` union of the source. -/
inductive InvStatus where
  | draft
  | finalized
deriving DecidableEq, Repr

/-- The slice of a saved invoice that the numbering authority reads. -/
structure HistEntry where
  invoiceNumber : String
  status : InvStatus
deriving DecidableEq, Repr

/-- The `{year}-{2-digit month}` string used both to filter the history and
as the prefix of the generated number (the source builds it from
`date.getFullYear()` and `String(date.getMonth() + 1).padStart(2, '0')`). -/
def monthTag (year monthNum : Nat) : String :=
  toString year ++ "-" ++ padStart 2 '0' (toString monthNum)

/-- The sequence component the source extracts from one history entry:
`parseInt(inv.invoiceNumber.split('-')[2]) || 0` guarded by
`if (!inv.invoiceNumber || typeof inv.invoiceNumber !== 'string') return 0`. -/
def seqOfNumber (n : String) : Int :=
  if n = "" then 0
  else
    match (splitOnChar '-' n.data []).get? 2 with
    | none => 0
    | some seg => (jsParseInt seg).getD 0

/-- Result record of `generateSmartInvoiceNumber`. -/
structure SmartNumber where
  number : String
  hasConflict : Bool
  conflictInfo : Option String
deriving DecidableEq, Repr

/-- The conflict message
`Une facture brouillon existe déjà pour ${month}/${year} (${number})`. -/
def conflictMsg (year monthNum : Nat) (n : String) : String :=
  "Une facture brouillon existe déjà pour " ++ padStart 2 '0' (toString monthNum) ++
    "/" ++ toString year ++ " (" ++ n ++ ")"

/-- Embedding of `generateSmartInvoiceNumber` (App.tsx 1775-1813).  The
source derives `year`/`month` from a `Date`; here they are the function's
inputs, and the awaited `getInvoiceHistory()` result is the `history`
argument.  `Math.max(...existingNumbers, 11)` is the left fold of `max`
with initial value `11` over the sorted sequence list. -/
def generateSmartInvoiceNumber (year monthNum : Nat) (history : List HistEntry) :
    SmartNumber :=
  let pre := monthTag year monthNum
  let monthInvoices := history.filter fun inv =>
    strStartsWith inv.invoiceNumber pre && inv.status == InvStatus.finalized
  let existingNumbers := sortInts (monthInvoices.map fun inv => seqOfNumber inv.invoiceNumber)
  let nextNumber : Int :=
    if existingNumbers.length > 0 then existingNumbers.foldl max 11 + 1 else 12
  let newInvoiceNumber := pre ++ "-" ++ padStart 4 '0' (toString nextNumber)
  let draftForMonth := history.find? fun inv =>
    strStartsWith inv.invoiceNumber pre && inv.status == InvStatus.draft
  { number := newInvoiceNumber
    hasConflict := draftForMonth.isSome
    conflictInfo := draftForMonth.map fun d => conflictMsg year monthNum d.invoiceNumber }

/-- Spec-side description of the sequence pool: the third dash-delimited
segments (0 on parse failure) of the numbers of finalized invoices whose
number carries the target year-month prefix. -/
def finalizedMonthSeqs (year monthNum : Nat) (history : List HistEntry) : List Int :=
  (history.filter fun inv =>
      strStartsWith inv.invoiceNumber (monthTag year monthNum) &&
        inv.status == InvStatus.finalized).map
    fun inv => seqOfNumber inv.invoiceNumber

/-! ### Line items and `updateArticle` (App.tsx 47-55, 1602-1616, 1624-1626) -/

/-- The `Article` interface.  JavaScript numbers are modelled as rationals;
the claims under check do not depend on floating-point rounding. -/
structure Article where
  id : String
  name : String
  description : List String
  quantity : ℚ
  unit : String
  unitPrice : ℚ
  total : ℚ
deriving DecidableEq, Repr

/-- A `Partial<Article>` value: each field is present (`some`) or absent
(`none`), matching the key-presence tests `'quantity' in updates`. -/
structure ArticleUpdate where
  id : Option String := none
  name : Option String := none
  description : Option (List String) := none
  quantity : Option ℚ := none
  unit : Option String := none
  unitPrice : Option ℚ := none
  total : Option ℚ := none
deriving DecidableEq, Repr

/-- The spread `{ ...article, ...updates }`: fields present in `updates`
override the corresponding fields of `article`. -/
def spreadUpdate (a : Article) (u : ArticleUpdate) : Article :=
  { id := u.id.getD a.id
    name := u.name.getD a.name
    description := u.description.getD a.description
    quantity := u.quantity.getD a.quantity
    unit := u.unit.getD a.unit
    unitPrice := u.unitPrice.getD a.unitPrice
    total := u.total.getD a.total }

/-- The body of the `map` inside `updateArticle` (App.tsx 1603-1615):
on the article whose `id` matches, apply the spread and recompute `total`
only when `quantity` or `unitPrice` is among the updated keys. -/
def updateOne (id : String) (u : ArticleUpdate) (a : Article) : Article :=
  if a.id = id then
    let updated := spreadUpdate a u
    if u.quantity.isSome || u.unitPrice.isSome then
      { updated with total := updated.quantity * updated.unitPrice }
    else updated
  else a

/-- Embedding of `updateArticle` (App.tsx 1602-1616): the new article list
installed by `setArticles`. -/
def updateArticle (id : String) (u : ArticleUpdate) (articles : List Article) :
    List Article :=
  articles.map (updateOne id u)

/-- Embedding of `calculateTotal` (App.tsx 1624-1626). -/
def calculateTotal (articles : List Article) : ℚ :=
  articles.foldl (fun sum a => sum + a.total) 0

/-! ### Invoice lifecycle (`finalizeInvoice`, App.tsx 1860-1909, and its
collaborators `saveUserProfile` 1329-1425 and `saveInvoiceToHistory`
1691-1773) -/

/-- The `CompanyInfo` interface (App.tsx 19-34). -/
structure CompanyInfo where
  firstName : String
  lastName : String
  companyName : String
  address : String
  postalCode : String
  city : String
  phone : String
  email : String
  siret : String
  accountName : String
  bic : String
  iban : String
  bankName : String
  logoUrl : Option String := none
deriving DecidableEq, Repr

/-- The `ClientInfo` interface (App.tsx 36-45). -/
structure ClientInfo where
  firstName : String
  lastName : String
  address : String
  postalCode : String
  city : String
  siret : String
  phone : String
  email : String
deriving DecidableEq, Repr

/-- The `SavedInvoice` interface (App.tsx 57-71). -/
structure SavedInvoice where
  id : String
  invoiceNumber : String
  invoiceDate : String
  deliveryDate : String
  paymentTerms : String
  paymentDue : String
  companyInfo : CompanyInfo
  clientInfo : ClientInfo
  articles : List Article
  totalAmount : ℚ
  status : InvStatus
  createdAt : String
  finalizedAt : Option String := none
deriving DecidableEq, Repr

/-- The current invoice form fields (the `invoice` state object). -/
structure InvoiceForm where
  invoiceNumber : String
  invoiceDate : String
  deliveryDate : String
  paymentTerms : String
  paymentDue : String
deriving DecidableEq, Repr

/-- Message banner state (`setMessage`). -/
inductive MsgType where
  | error
  | success
deriving DecidableEq, Repr

structure Msg where
  type : MsgType
  text : String
deriving DecidableEq, Repr

/-- The slice of component state that `finalizeInvoice` reads and writes.
The asynchronous store is folded into the state: `history` is the persisted
invoice collection behind `getInvoiceHistory`/`saveInvoiceToHistory`. -/
structure AppState where
  user : Option String
  isSupabaseConfigured : Bool
  currentInvoiceId : Option String
  invoiceStatus : InvStatus
  invoice : InvoiceForm
  companyInfo : CompanyInfo
  clientInfo : ClientInfo
  articles : List Article
  history : List SavedInvoice
  message : Option Msg
  hasUnsavedChanges : Bool
deriving DecidableEq, Repr

/-- Return value of `saveUserProfile(false)` (App.tsx 1329-1425): `false`
when no user is logged in or Supabase is not configured, otherwise the
outcome of the profile upsert, supplied as `storeOk`. -/
def profileSaveResult (storeOk : Bool) (s : AppState) : Bool :=
  if s.user = none ∨ s.isSupabaseConfigured = false then false else storeOk

/-- State effect of `saveUserProfile(false)`: with `showSuccessMessage`
false it writes no message; on success it clears `hasUnsavedChanges`. -/
def applyProfileSave (storeOk : Bool) (s : AppState) : AppState :=
  if profileSaveResult storeOk s then { s with hasUnsavedChanges := false } else s

/-- Effect of `saveInvoiceToHistory` on the persisted collection (App.tsx
1691-1773): both the localStorage branch (`findIndex` by `id`, replace or
push) and the Supabase branch (`upsert` keyed by `id`) upsert by `id`. -/
def upsertInvoice (inv : SavedInvoice) : List SavedInvoice → List SavedInvoice
  | [] => [inv]
  | h :: t => if h.id = inv.id then inv :: t else h :: upsertInvoice inv t

def txtNoInvoice : String :=
  "Erreur : aucune facture en cours. Veuillez créer une nouvelle facture."

def txtNoUser : String :=
  "Erreur : utilisateur non connecté. Veuillez vous reconnecter."

def txtSaveAborted : String :=
  "Erreur : impossible de sauvegarder les informations. Finalisation annulée."

def txtFinalized : String :=
  "Facture finalisée avec succès ! 🎉 Vous pouvez maintenant créer une nouvelle facture."

/-- The `invoiceData` record built by `finalizeInvoice` (App.tsx 1880-1894):
snapshots the parties and articles by value, sums the line totals, sets the
status to `finalized` and stamps both timestamps with `now`
(`new Date().toISOString()`). -/
def mkFinalizedInvoice (s : AppState) (now : String) : SavedInvoice :=
  { id := s.currentInvoiceId.getD ""
    invoiceNumber := s.invoice.invoiceNumber
    invoiceDate := s.invoice.invoiceDate
    deliveryDate := s.invoice.deliveryDate
    paymentTerms := s.invoice.paymentTerms
    paymentDue := s.invoice.paymentDue
    companyInfo := s.companyInfo
    clientInfo := s.clientInfo
    articles := s.articles
    totalAmount := calculateTotal s.articles
    status := InvStatus.finalized
    createdAt := now
    finalizedAt := some now }

/-- Embedding of `finalizeInvoice` (App.tsx 1860-1909).  `now` stands for
`new Date().toISOString()` and `storeOk` for the outcome of the profile
upsert inside `saveUserProfile(false)`.  Note the source checks
`currentInvoiceId` and `user` but never `invoiceStatus`. -/
def finalizeInvoice (now : String) (storeOk : Bool) (s : AppState) : AppState :=
  if s.currentInvoiceId = none then
    { s with message := some ⟨MsgType.error, txtNoInvoice⟩ }
  else if s.user = none then
    { s with message := some ⟨MsgType.error, txtNoUser⟩ }
  else
    let profileSaved := profileSaveResult storeOk s
    let s₁ := applyProfileSave storeOk s
    if !profileSaved && s.isSupabaseConfigured then
      { s₁ with message := some ⟨MsgType.error, txtSaveAborted⟩ }
    else
      let invoiceData := mkFinalizedInvoice s₁ now
      { s₁ with
        history := upsertInvoice invoiceData s₁.history
        invoiceStatus := InvStatus.finalized
        message := some ⟨MsgType.success, txtFinalized⟩ }

/-- The UI guard on the only call path to `finalizeInvoice`: the
"Finaliser la facture" button is rendered exactly when
`invoiceStatus === 'draft'` (App.tsx 2675-2683). -/
def showFinalizeButton (s : AppState) : Bool :=
  s.invoiceStatus == InvStatus.draft

/-! ### Payment due date (`calculatePaymentDue`, App.tsx 5178-5187) -/

/-- A calendar date, modelling the (year, month, day) view of a JS `Date`. -/
structure Date where
  year : Nat
  month : Nat
  day : Nat
deriving DecidableEq, Repr

def isLeapYear (y : Nat) : Bool :=
  (y % 4 == 0 && y % 100 != 0) || y % 400 == 0

def daysInMonth (y m : Nat) : Nat :=
  if m = 2 then (if isLeapYear y then 29 else 28)
  else if m = 4 ∨ m = 6 ∨ m = 9 ∨ m = 11 then 30
  else 31

def nextDay (d : Date) : Date :=
  if d.day < daysInMonth d.year d.month then { d with day := d.day + 1 }
  else if d.month < 12 then { year := d.year, month := d.month + 1, day := 1 }
  else { year := d.year + 1, month := 1, day := 1 }

def prevDay (d : Date) : Date :=
  if 1 < d.day then { d with day := d.day - 1 }
  else if 1 < d.month then
    { year := d.year, month := d.month - 1, day := daysInMonth d.year (d.month - 1) }
  else { year := d.year - 1, month := 12, day := 31 }

def addDaysNat : Date → Nat → Date
  | d, 0 => d
  | d, n + 1 => addDaysNat (nextDay d) n

def subDaysNat : Date → Nat → Date
  | d, 0 => d
  | d, n + 1 => subDaysNat (prevDay d) n

/-- Calendar-day shift, modelling `date.setDate(date.getDate() + n)`
(which rolls months and years over in either direction). -/
def addDays (d : Date) (n : Int) : Date :=
  match n with
  | Int.ofNat k => addDaysNat d k
  | Int.negSucc k => subDaysNat d (k + 1)

/-- `toLocaleDateString('fr-FR')`: day/month/year with 2-digit day and
month. -/
def frFormat (d : Date) : String :=
  padStart 2 '0' (toString d.day) ++ "/" ++ padStart 2 '0' (toString d.month) ++
    "/" ++ toString d.year

/-- Embedding of `calculatePaymentDue` (App.tsx 5178-5187).  `now` stands
for `new Date()`, returned (formatted) when `terms` is falsy; otherwise
`parseInt(terms.split(' ')[0])` is taken, `NaN` falling back to 30, and the
invoice date is shifted by that many calendar days. -/
def calculatePaymentDue (now invoiceDate : Date) (terms : String) : String :=
  if terms = "" then frFormat now
  else
    match jsParseInt ((splitOnChar ' ' terms.data []).headD []) with
    | none => frFormat (addDays invoiceDate 30)
    | some days => frFormat (addDays invoiceDate days)

/-- Modelled from the spec: `termDays` maps a term string to its leading
integer token, defaulting to 30 when unparseable (spec §4.2). -/
def termDays (terms : String) : Int :=
  (jsParseInt ((splitOnChar ' ' terms.data []).headD [])).getD 30

/-! ### PDF pagination engine (`generatePDF`, App.tsx 2269-2450) -/

/-- The layout constants of `generatePDF`: `maxYPerPage = 285 - 30 = 255`,
`bottomPadding = 5`, `totalHTSpace = 1`, `paymentAndMentionsSpace = 60`,
and `50`, the cursor start of every page after the first. -/
structure LayoutParams where
  maxYPerPage : Int
  bottomPadding : Int
  totalHTSpace : Int
  paymentAndMentionsSpace : Int
  resetY : Int
deriving DecidableEq, Repr

def pdfLayout : LayoutParams :=
  { maxYPerPage := 255, bottomPadding := 5, totalHTSpace := 1,
    paymentAndMentionsSpace := 60, resetY := 50 }

/-- The y cursor when the article packing loop starts: `yPos` begins at 25
(App.tsx 2050) and accumulates 35 + 15 + 8 + 6·5 + 15 + 7 + 20 across the
header, address and dates blocks (App.tsx 2122-2185), reaching 155. -/
def pdfInitialY : Int := 155

/-- `Math.max(20, article.description.length * 4 + 10)`, the rendered
height of one article row (App.tsx 2220 and 2286). -/
def articleHeight (a : Article) : Int :=
  max 20 (a.description.length * 4 + 10)

/-- One entry of `pageBreaks` (App.tsx 2281). -/
structure PageChunk where
  page : Nat
  articles : List Article
  startIndex : Nat
  hasSpaceForTotal : Bool
deriving DecidableEq, Repr

/-- The mutable locals of the packing loop (App.tsx 2279-2283). -/
structure PackState where
  currentPageY : Int
  currentPage : Nat
  pageBreaks : List PageChunk
  currentPageArticles : List Article
  articleStartIndex : Nat
deriving DecidableEq, Repr

def initPackState (y0 : Int) : PackState :=
  { currentPageY := y0, currentPage := 1, pageBreaks := [],
    currentPageArticles := [], articleStartIndex := 0 }

/-- One iteration of `articles.forEach` (App.tsx 2285-2317): test whether
the article (plus the table-header height 10 when it would be the first of
the page) overflows `maxYPerPage - bottomPadding`; on overflow flush the
current chunk (when non-empty, recording whether the Total HT box still
fits on it) and restart the cursor at 50; otherwise append the article and
advance the cursor. -/
def packStep (P : LayoutParams) (st : PackState) (idx : Nat) (a : Article) :
    PackState :=
  let h := articleHeight a
  let headerSpace : Int := if st.currentPageArticles.length = 0 then 10 else 0
  let spaceNeeded := h + headerSpace
  if st.currentPageY + spaceNeeded > P.maxYPerPage - P.bottomPadding then
    let flushed :=
      if st.currentPageArticles.length > 0 then
        st.pageBreaks ++
          [{ page := st.currentPage, articles := st.currentPageArticles,
             startIndex := st.articleStartIndex,
             hasSpaceForTotal :=
               st.currentPageY + P.totalHTSpace ≤ P.maxYPerPage - P.bottomPadding }]
      else st.pageBreaks
    { currentPage := st.currentPage + 1
      currentPageY := P.resetY + spaceNeeded
      pageBreaks := flushed
      currentPageArticles := [a]
      articleStartIndex := idx }
  else
    { st with
      currentPageArticles := st.currentPageArticles ++ [a]
      currentPageY := st.currentPageY + spaceNeeded }

def packArticles (P : LayoutParams) (y0 : Int) (articles : List Article) :
    PackState :=
  (articles.enum).foldl (fun st p => packStep P st p.1 p.2) (initPackState y0)

/-- The `pageBreaks` list after the trailing flush (App.tsx 2319-2330). -/
def pageBreaksOf (P : LayoutParams) (y0 : Int) (articles : List Article) :
    List PageChunk :=
  let st := packArticles P y0 articles
  if st.currentPageArticles.length > 0 &&
      (st.pageBreaks.find? (fun p => p.startIndex == st.articleStartIndex)).isNone then
    st.pageBreaks ++
      [{ page := st.currentPage, articles := st.currentPageArticles,
         startIndex := st.articleStartIndex,
         hasSpaceForTotal :=
           st.currentPageY + P.totalHTSpace ≤ P.maxYPerPage - P.bottomPadding }]
  else st.pageBreaks

/-- The pre-computed `totalPages` (App.tsx 2332-2366): the number of
article pages, plus one when the last chunk lacks room for the Total HT
box, or plus one when the box fits but the estimated cursor after the last
chunk leaves no room for the payment/legal block.  With an empty
`pageBreaks`, `lastPageForTotal` is `undefined` and both additions are
skipped, leaving the count at `0`. -/
def precomputedTotalPages (P : LayoutParams) (y0 : Int) (articles : List Article) :
    Nat :=
  let pbs := pageBreaksOf P y0 articles
  match pbs.getLast? with
  | none => pbs.length
  | some last =>
    if !last.hasSpaceForTotal then pbs.length + 1
    else
      let startY := if pbs.length = 1 then y0 else P.resetY
      let estimatedYAfterArticles :=
        startY + 10 + (last.articles.foldl (fun acc a => acc + articleHeight a) 0) + 10
      if estimatedYAfterArticles + P.totalHTSpace + P.paymentAndMentionsSpace >
          P.maxYPerPage - P.bottomPadding then
        pbs.length + 1
      else pbs.length

/-- Observable events of the render pass (App.tsx 2368-2450): how many
physical pages the document ends with (jsPDF starts with one page and
`doc.addPage()` adds one), how many table headers were drawn, the
`(pageNum, totalPages)` footer pairs in drawing order, the physical page
that receives the Total HT box, and the amount text printed in it. -/
structure RenderTrace where
  pagesEmitted : Nat
  tableHeadersDrawn : Nat
  footers : List (Nat × Nat)
  totalBoxPage : Nat
  totalBoxAmountText : String
deriving DecidableEq, Repr

/-- `toFixed(2)` for the non-negative amounts at stake. -/
def toFixed2 (q : ℚ) : String :=
  let n : Int := ⌊q * 100 + 1 / 2⌋
  toString (n / 100) ++ "." ++ padStart 2 '0' (toString (n % 100))

/-- Embedding of the render pass (App.tsx 2368-2450).  The chunk loop draws
a table header and a `(chunk.page, totalPages)` footer per chunk, adding a
physical page for every chunk after the first; `finalYPos` tracks the
cursor after the last chunk.  The Total HT box lands on the same page when
the last chunk's `hasSpaceForTotal` flag is set (possibly followed by one
added page for the payment block), and otherwise on a freshly added page
whose footer reads `(totalPages, totalPages)`. -/
def renderPass (P : LayoutParams) (y0 : Int) (articles : List Article) :
    RenderTrace :=
  let pbs := pageBreaksOf P y0 articles
  let totalPages := precomputedTotalPages P y0 articles
  let articlePages := max 1 pbs.length
  let amountText := toFixed2 (calculateTotal articles) ++ " €"
  let chunkFooters := pbs.map fun c => (c.page, totalPages)
  let finalYPos :=
    match pbs.getLast? with
    | none => y0
    | some last =>
      let startY := if pbs.length = 1 then y0 else P.resetY
      startY + 10 + (last.articles.foldl (fun acc a => acc + articleHeight a) 0) + 10
  let hasSpace :=
    match pbs.getLast? with
    | none => false
    | some last => last.hasSpaceForTotal
  if hasSpace then
    let needsNewPageForPayment :=
      finalYPos + P.totalHTSpace + P.paymentAndMentionsSpace >
        P.maxYPerPage - P.bottomPadding
    { pagesEmitted := articlePages + (if needsNewPageForPayment then 1 else 0)
      tableHeadersDrawn := pbs.length
      footers := chunkFooters ++
        (if needsNewPageForPayment then [(totalPages, totalPages)] else [])
      totalBoxPage := articlePages
      totalBoxAmountText := amountText }
  else
    { pagesEmitted := articlePages + 1
      tableHeadersDrawn := pbs.length
      footers := chunkFooters ++ [(totalPages, totalPages)]
      totalBoxPage := articlePages + 1
      totalBoxAmountText := amountText }

/-! ### Concrete fixtures used by witnesses and counterexamples -/

def sampleCompany : CompanyInfo :=
  { firstName := "A", lastName := "B", companyName := "ACME", address := "1 rue X",
    postalCode := "75001", city := "Paris", phone := "0102030405",
    email := "a@b.fr", siret := "12345678901234", accountName := "ACME",
    bic := "BIC", iban := "FR76", bankName := "Banque", logoUrl := none }

def sampleClient : ClientInfo :=
  { firstName := "C", lastName := "D", address := "2 rue Y", postalCode := "69001",
    city := "Lyon", siret := "43210987654321", phone := "0605040302",
    email := "c@d.fr" }

def sampleForm : InvoiceForm :=
  { invoiceNumber := "2024-03-0012", invoiceDate := "01/03/2024",
    deliveryDate := "01/03/2024", paymentTerms := "30 jours à réception",
    paymentDue := "31/03/2024" }

/-- A saved invoice already finalized at `2024-03-01T10:00:00Z`. -/
def savedInv1 : SavedInvoice :=
  { id := "inv1", invoiceNumber := "2024-03-0012", invoiceDate := "01/03/2024",
    deliveryDate := "01/03/2024", paymentTerms := "30 jours à réception",
    paymentDue := "31/03/2024", companyInfo := sampleCompany,
    clientInfo := sampleClient, articles := [], totalAmount := 0,
    status := InvStatus.finalized, createdAt := "2024-03-01T10:00:00Z",
    finalizedAt := some "2024-03-01T10:00:00Z" }

/-- Component state after `savedInv1` was finalized and is still loaded:
`invoiceStatus` is `finalized` and the invoice is persisted. -/
def finalizedState : AppState :=
  { user := some "u", isSupabaseConfigured := false,
    currentInvoiceId := some "inv1", invoiceStatus := InvStatus.finalized,
    invoice := sampleForm, companyInfo := sampleCompany,
    clientInfo := sampleClient, articles := [], history := [savedInv1],
    message := none, hasUnsavedChanges := false }

/-- A draft in progress under a configured Supabase backend. -/
def draftState : AppState :=
  { user := some "u", isSupabaseConfigured := true,
    currentInvoiceId := some "inv2", invoiceStatus := InvStatus.draft,
    invoice := sampleForm, companyInfo := sampleCompany,
    clientInfo := sampleClient, articles := [], history := [],
    message := none, hasUnsavedChanges := true }

/-- The layout instance of the spec's boundary scenario: a page content
budget of 50 units and no bottom padding (the table-header cost of 10 is
the constant of `packStep` itself). -/
def fitParams : LayoutParams :=
  { maxYPerPage := 50, bottomPadding := 0, totalHTSpace := 1,
    paymentAndMentionsSpace := 60, resetY := 0 }

/-- An article of rendered height exactly 20 (one description line). -/
def item20 : Article :=
  { id := "a", name := "n", description := ["d"], quantity := 1, unit := "u",
    unitPrice := 0, total := 0 }

/-- Packing state on page 1 after `item20` was placed first (cursor
10 + 20 = 30): the next item lands exactly on the budget edge. -/
def boundaryState : PackState :=
  { currentPageY := 30, currentPage := 1, pageBreaks := [],
    currentPageArticles := [item20], articleStartIndex := 0 }

/-! ## Theorems -/

/-! ### Helper lemmas -/

theorem foldl_max_insertSorted (x : Int) (l : List Int) (i : Int) :
    (insertSorted x l).foldl max i = l.foldl max (max i x) := by
  induction l generalizing i with
  | nil => simp [insertSorted]
  | cons y ys ih =>
    by_cases h : x ≤ y
    · simp [insertSorted, h, List.foldl]
    · simp only [insertSorted, if_neg h, List.foldl, ih]
      rw [sup_right_comm]

theorem foldl_max_sortInts (l : List Int) (i : Int) :
    (sortInts l).foldl max i = l.foldl max i := by
  induction l generalizing i with
  | nil => rfl
  | cons x xs ih => simp [sortInts, foldl_max_insertSorted, ih, List.foldl]

theorem length_insertSorted (x : Int) (l : List Int) :
    (insertSorted x l).length = l.length + 1 := by
  induction l with
  | nil => rfl
  | cons y ys ih =>
    by_cases h : x ≤ y <;> simp [insertSorted, h, ih]

theorem length_sortInts (l : List Int) : (sortInts l).length = l.length := by
  induction l with
  | nil => rfl
  | cons x xs ih => simp [sortInts, length_insertSorted, ih]

theorem nextSeq_eq (L : List Int) :
    (if (sortInts L).length > 0 then (sortInts L).foldl max 11 + 1 else 12) =
      L.foldl max 11 + 1 := by
  cases L with
  | nil => simp [sortInts]
  | cons x xs =>
    have hlen : (sortInts (x :: xs)).length > 0 := by
      rw [length_sortInts]; simp
    simp [hlen, foldl_max_sortInts]

/-! ### Claim C1: next invoice number -/

/-- C1: for every history and target month, `generateSmartInvoiceNumber`
returns sequence `max(S ∪ {11}) + 1`, where `S` is the list of third
dash-delimited segments (0 on parse failure) of the numbers of finalized
invoices carrying the target year-month prefix; in particular sequence 12
when no finalized invoice exists for the month and 16 for finalized
sequences 12, 13, 15; the result is formatted as
`{year}-{2-digit month}-{4-digit zero-padded sequence}`. -/
theorem smartNumber_seq_formula (y m : Nat) (history : List HistEntry) :
    (generateSmartInvoiceNumber y m history).number =
      monthTag y m ++ "-" ++
        padStart 4 '0' (toString ((finalizedMonthSeqs y m history).foldl max 11 + 1)) ∧
    (finalizedMonthSeqs y m history = [] →
      (generateSmartInvoiceNumber y m history).number =
        monthTag y m ++ "-" ++ "0012") ∧
    (finalizedMonthSeqs y m history = [12, 13, 15] →
      (generateSmartInvoiceNumber y m history).number =
        monthTag y m ++ "-" ++ "0016") := by
  have h1 : (generateSmartInvoiceNumber y m history).number =
      monthTag y m ++ "-" ++
        padStart 4 '0' (toString ((finalizedMonthSeqs y m history).foldl max 11 + 1)) := by
    simp only [generateSmartInvoiceNumber, finalizedMonthSeqs]
    rw [nextSeq_eq]
  refine ⟨h1, fun h => ?_, fun h => ?_⟩
  · rw [h1, h]; rfl
  · rw [h1, h]; rfl

/-- Witness for C1 at a concrete history with finalized sequences
12, 13, 15 in 2024-03: the next number is `2024-03-0016`. -/
theorem smartNumber_seq_formula_witness :
    (generateSmartInvoiceNumber 2024 3
      [⟨"2024-03-0012", InvStatus.finalized⟩, ⟨"2024-03-0013", InvStatus.finalized⟩,
       ⟨"2024-03-0015", InvStatus.finalized⟩]).number = "2024-03-0016" :=
  ((smartNumber_seq_formula 2024 3
    [⟨"2024-03-0012", InvStatus.finalized⟩, ⟨"2024-03-0013", InvStatus.finalized⟩,
     ⟨"2024-03-0015", InvStatus.finalized⟩]).2.2 (by decide)).trans (by decide)

/-! ### Claim C9: conflict detection -/

/-- C9: `hasConflict` is true exactly when some history entry is a draft
whose number carries the target year-month prefix, and `conflictInfo` then
names the first such draft's number in the conflict message; the function
is a pure function of the history. -/
theorem smartNumber_conflict (y m : Nat) (history : List HistEntry) :
    ((generateSmartInvoiceNumber y m history).hasConflict = true ↔
      ∃ inv ∈ history, strStartsWith inv.invoiceNumber (monthTag y m) = true ∧
        inv.status = InvStatus.draft) ∧
    (∀ d, history.find? (fun inv =>
        strStartsWith inv.invoiceNumber (monthTag y m) &&
          inv.status == InvStatus.draft) = some d →
      (generateSmartInvoiceNumber y m history).conflictInfo =
        some (conflictMsg y m d.invoiceNumber)) := by
  constructor
  · simp only [generateSmartInvoiceNumber]
    rw [List.find?_isSome]
    constructor
    · rintro ⟨inv, hmem, hp⟩
      simp only [Bool.and_eq_true, beq_iff_eq] at hp
      exact ⟨inv, hmem, hp.1, hp.2⟩
    · rintro ⟨inv, hmem, hpre, hdraft⟩
      exact ⟨inv, hmem, by simp [hpre, hdraft]⟩
  · intro d hd
    simp only [generateSmartInvoiceNumber, hd]
    rfl

/-- Witness for C9 at a concrete history holding one draft for 2024-03. -/
theorem smartNumber_conflict_witness :
    (generateSmartInvoiceNumber 2024 3
      [⟨"2024-03-0016", InvStatus.draft⟩]).hasConflict = true ∧
    (generateSmartInvoiceNumber 2024 3
      [⟨"2024-03-0016", InvStatus.draft⟩]).conflictInfo =
      some "Une facture brouillon existe déjà pour 03/2024 (2024-03-0016)" := by
  have h := smartNumber_conflict 2024 3 [⟨"2024-03-0016", InvStatus.draft⟩]
  refine ⟨h.1.mpr ⟨⟨"2024-03-0016", InvStatus.draft⟩, by decide, by decide, rfl⟩, ?_⟩
  exact (h.2 ⟨"2024-03-0016", InvStatus.draft⟩ (by decide)).trans (by decide)

/-! ### Claim C10: `updateArticle` is frame-preserving -/

/-- C10: `updateArticle` preserves the length and order of the article
list, leaves every article whose id differs from the given id completely
unchanged, and in the matching article only the fields present in the
update (plus the derived `total`) may change. -/
theorem updateArticle_frame (id : String) (u : ArticleUpdate) (l : List Article) :
    (updateArticle id u l).length = l.length ∧
    (∀ i a, l.get? i = some a → a.id ≠ id → (updateArticle id u l).get? i = some a) ∧
    (∀ a : Article, a.id = id →
      (u.id = none → (updateOne id u a).id = a.id) ∧
      (u.name = none → (updateOne id u a).name = a.name) ∧
      (u.description = none → (updateOne id u a).description = a.description) ∧
      (u.quantity = none → (updateOne id u a).quantity = a.quantity) ∧
      (u.unit = none → (updateOne id u a).unit = a.unit) ∧
      (u.unitPrice = none → (updateOne id u a).unitPrice = a.unitPrice)) := by
  refine ⟨by simp [updateArticle], ?_, ?_⟩
  · intro i a hget hne
    have hone : updateOne id u a = a := by
      simp [updateOne, hne]
    simp only [updateArticle, List.get?_eq_getElem?] at *
    simp [List.getElem?_map]
    exact ⟨a, hget, hone⟩
  · intro a ha
    refine ⟨fun h => ?_, fun h => ?_, fun h => ?_, fun h => ?_, fun h => ?_, fun h => ?_⟩ <;>
      · simp only [updateOne, if_pos ha, spreadUpdate, h, Option.getD_none]
        split <;> rfl

/-- Witness for C10: a two-article list where the first article's name is
updated; the second article and the first article's description survive. -/
theorem updateArticle_frame_witness :
    (updateArticle "a1" { name := some "renamed" }
        [⟨"a1", "x", ["d"], 2, "u", 3, 6⟩, ⟨"a2", "y", [], 1, "u", 4, 4⟩]).length = 2 ∧
    (updateArticle "a1" { name := some "renamed" }
        [⟨"a1", "x", ["d"], 2, "u", 3, 6⟩, ⟨"a2", "y", [], 1, "u", 4, 4⟩]).get? 1 =
      some ⟨"a2", "y", [], 1, "u", 4, 4⟩ ∧
    (updateOne "a1" { name := some "renamed" } ⟨"a1", "x", ["d"], 2, "u", 3, 6⟩).description =
      ["d"] := by
  have h := updateArticle_frame "a1" { name := some "renamed" }
    [⟨"a1", "x", ["d"], 2, "u", 3, 6⟩, ⟨"a2", "y", [], 1, "u", 4, 4⟩]
  exact ⟨h.1, h.2.1 1 ⟨"a2", "y", [], 1, "u", 4, 4⟩ (by decide) (by decide),
    (h.2.2 ⟨"a1", "x", ["d"], 2, "u", 3, 6⟩ rfl).2.2.1 rfl⟩

/-! ### Claim C8: derived `total` -/

/-- C8 counterexample: an update containing only the `total` field passes
through the spread without triggering the recompute, so `total` is
independently settable through `updateArticle`: on an article with
quantity 2 and unit price 3, the update `{ total: 999 }` leaves
`total = 999 ≠ 2 * 3`. -/
theorem updateArticle_total_settable :
    updateArticle "a1" { total := some 999 } [⟨"a1", "x", [], 2, "u", 3, 6⟩] =
      [⟨"a1", "x", [], 2, "u", 3, 999⟩] ∧ (999 : ℚ) ≠ 2 * 3 := by
  constructor
  · rfl
  · norm_num

/-- C8 as amended: after any `updateArticle` update containing `quantity`
or `unitPrice`, the matching article satisfies
`total = quantity * unitPrice`; but an update containing `total` and
neither `quantity` nor `unitPrice` sets `total` to the supplied value
directly (no call site in the application passes `total`). -/
theorem updateArticle_total_invariant (id : String) (u : ArticleUpdate) (a : Article) :
    (a.id = id → (u.quantity.isSome || u.unitPrice.isSome) = true →
      (updateOne id u a).total = (updateOne id u a).quantity * (updateOne id u a).unitPrice) ∧
    (a.id = id → u.quantity = none → u.unitPrice = none → ∀ t, u.total = some t →
      (updateOne id u a).total = t) := by
  constructor
  · intro ha hqp
    simp [updateOne, if_pos ha, hqp]
  · intro ha hq hp t ht
    simp [updateOne, if_pos ha, hq, hp, spreadUpdate, ht]

/-- Witness for the amended C8: updating the quantity to 5 on an article
with unit price 3 recomputes `total = 15`. -/
theorem updateArticle_total_invariant_witness :
    (updateOne "a1" { quantity := some 5 } ⟨"a1", "x", [], 2, "u", 3, 6⟩).total =
      (updateOne "a1" { quantity := some 5 } ⟨"a1", "x", [], 2, "u", 3, 6⟩).quantity *
        (updateOne "a1" { quantity := some 5 } ⟨"a1", "x", [], 2, "u", 3, 6⟩).unitPrice :=
  (updateArticle_total_invariant "a1" { quantity := some 5 }
    ⟨"a1", "x", [], 2, "u", 3, 6⟩).1 rfl (by decide)

/-! ### Claim C4: abort when the pre-finalize profile save fails -/

/-- C4: when persistence is mandatory (`isSupabaseConfigured`) and the
profile upsert fails (`storeOk = false`), `finalizeInvoice` only reports an
error: the status is untouched (a draft stays a draft), nothing is
persisted to the history, and no `finalizedAt` is stamped. -/
theorem finalize_abort_on_save_failure (s : AppState) (now : String)
    (h1 : s.currentInvoiceId ≠ none) (h2 : s.user ≠ none)
    (h3 : s.isSupabaseConfigured = true) :
    finalizeInvoice now false s =
      { s with message := some ⟨MsgType.error, txtSaveAborted⟩ } ∧
    (finalizeInvoice now false s).invoiceStatus = s.invoiceStatus ∧
    (finalizeInvoice now false s).history = s.history := by
  have hps : profileSaveResult false s = false := by
    simp [profileSaveResult]
  have hmain : finalizeInvoice now false s =
      { s with message := some ⟨MsgType.error, txtSaveAborted⟩ } := by
    simp [finalizeInvoice, h1, h2, h3, hps, applyProfileSave]
  exact ⟨hmain, by rw [hmain], by rw [hmain]⟩

/-- Witness for C4 at `draftState`: the aborted call leaves the draft
status and the (empty) history untouched and reports the abort message. -/
theorem finalize_abort_on_save_failure_witness :
    (finalizeInvoice "2024-03-02T09:00:00Z" false draftState).invoiceStatus =
      InvStatus.draft ∧
    (finalizeInvoice "2024-03-02T09:00:00Z" false draftState).history = [] ∧
    (finalizeInvoice "2024-03-02T09:00:00Z" false draftState).message =
      some ⟨MsgType.error, txtSaveAborted⟩ := by
  have h := finalize_abort_on_save_failure draftState "2024-03-02T09:00:00Z"
    (by decide) (by decide) (by decide)
  exact ⟨h.2.1.trans (by decide), h.2.2.trans (by decide), by rw [h.1]⟩

/-! ### Claim C3: finalize is not guarded by status -/

/-- C3 counterexample: `finalizeInvoice` never inspects `invoiceStatus`.
Calling it on `finalizedState` — whose invoice is already finalized with
`finalizedAt = 2024-03-01T10:00:00Z` — is neither rejected nor a no-op: it
overwrites the persisted record and re-stamps `finalizedAt` with the new
call time. -/
theorem finalize_second_call_restamps :
    finalizedState.invoiceStatus = InvStatus.finalized ∧
    finalizedState.history.map SavedInvoice.finalizedAt =
      [some "2024-03-01T10:00:00Z"] ∧
    (finalizeInvoice "2024-03-02T09:00:00Z" true finalizedState).history.map
        SavedInvoice.finalizedAt = [some "2024-03-02T09:00:00Z"] ∧
    ("2024-03-01T10:00:00Z" : String) ≠ "2024-03-02T09:00:00Z" := by
  refine ⟨rfl, rfl, ?_, by decide⟩
  rfl

/-- C3 as amended: under the preconditions the source does check (an
invoice id, a user, and no mandatory-save failure), `finalizeInvoice`
re-runs finalization regardless of the current status — re-upserting a
snapshot whose `finalizedAt` is the new call time — and at-most-once is
enforced only at the call site, where the finalize button is rendered
exactly while the status is `draft`. -/
theorem finalize_no_status_guard (s : AppState) (now : String) (storeOk : Bool)
    (h1 : s.currentInvoiceId ≠ none) (h2 : s.user ≠ none)
    (h3 : (!profileSaveResult storeOk s && s.isSupabaseConfigured) = false) :
    finalizeInvoice now storeOk s =
      { applyProfileSave storeOk s with
        history := upsertInvoice
          (mkFinalizedInvoice (applyProfileSave storeOk s) now) s.history
        invoiceStatus := InvStatus.finalized
        message := some ⟨MsgType.success, txtFinalized⟩ } ∧
    (mkFinalizedInvoice (applyProfileSave storeOk s) now).finalizedAt = some now ∧
    (s.invoiceStatus = InvStatus.finalized → showFinalizeButton s = false) := by
  refine ⟨?_, rfl, fun h => ?_⟩
  · have hhist : (applyProfileSave storeOk s).history = s.history := by
      simp [applyProfileSave]
      split <;> rfl
    simp only [finalizeInvoice, if_neg h1, if_neg h2, h3, Bool.false_eq_true,
      if_false, hhist]
  · simp [showFinalizeButton, h]

/-- Witness for the amended C3 at `finalizedState`: the second call leaves
the state re-finalized with the fresh stamp, and the UI button guard is off
for a finalized invoice. -/
theorem finalize_no_status_guard_witness :
    (mkFinalizedInvoice (applyProfileSave true finalizedState)
        "2024-03-02T09:00:00Z").finalizedAt = some "2024-03-02T09:00:00Z" ∧
    showFinalizeButton finalizedState = false := by
  have h := finalize_no_status_guard finalizedState "2024-03-02T09:00:00Z" true
    (by decide) (by decide) (by decide)
  exact ⟨h.2.1, h.2.2 (by decide)⟩

/-! ### Claim C5: the pagination fit test is inclusive at the budget edge -/

/-- C5: an article stays on the current page exactly when
`cursor + itemHeight (+ 10 for the first item of the page)` is less than
or equal to `maxYPerPage - bottomPadding`, so a placement landing exactly
on the budget is accepted; in the concrete boundary scenario (3 items of
height 20, budget 50, header cost 10) items 1 and 2 share page 1
(10 + 20 + 20 = 50) and item 3 opens page 2. -/
theorem pack_fit_inclusive :
    (∀ (P : LayoutParams) (st : PackState) (idx : Nat) (a : Article),
      (packStep P st idx a).currentPage = st.currentPage ↔
        st.currentPageY + articleHeight a +
          (if st.currentPageArticles.length = 0 then (10 : Int) else 0) ≤
            P.maxYPerPage - P.bottomPadding) ∧
    (pageBreaksOf fitParams 0 [item20, item20, item20]).map
        (fun c => (c.page, c.startIndex, c.articles.length)) = [(1, 0, 2), (2, 2, 1)] := by
  constructor
  · intro P st idx a
    by_cases h : st.currentPageY +
        (articleHeight a + (if st.currentPageArticles.length = 0 then (10 : Int) else 0)) >
          P.maxYPerPage - P.bottomPadding
    · simp only [packStep, if_pos h]
      constructor
      · intro hc; omega
      · intro hc; omega
    · simp only [packStep, if_neg h]
      constructor
      · intro _; omega
      · intro _; trivial
  · decide

/-- Witness for C5 at the exact boundary: with the cursor at 30, a height
20 item lands exactly on the 50-unit budget and is kept on page 1. -/
theorem pack_fit_inclusive_witness :
    (packStep fitParams boundaryState 1 item20).currentPage = 1 :=
  (pack_fit_inclusive.1 fitParams boundaryState 1 item20).mpr (by decide)

/-! ### Helper: the Total HT amount text for an empty invoice -/

theorem toFixed2_zero : toFixed2 0 = "0.00" := by
  have h0 : ((0 : ℚ) * 100 + 1 / 2) = 1 / 2 := by norm_num
  have hf : ⌊(1 / 2 : ℚ)⌋ = 0 := by
    rw [Int.floor_eq_zero_iff]
    constructor <;> norm_num
  simp only [toFixed2, h0, hf]
  rfl

/-! ### Claim C2: page-count precomputation versus render pass -/

/-- C2 fails on the code at the empty item list: the pre-computation
returns `totalPages = 0` (the `pageBreaks` array is empty, so
`lastPageForTotal` is `undefined` and both page additions are skipped),
while the render pass still emits 2 physical pages — the initial jsPDF
page plus the page added for the Total HT box — so the printed footer
reads `Page 0 / 0`. -/
theorem pageCount_mismatch_zero_items :
    precomputedTotalPages pdfLayout pdfInitialY [] = 0 ∧
    (renderPass pdfLayout pdfInitialY []).pagesEmitted = 2 ∧
    (renderPass pdfLayout pdfInitialY []).footers = [(0, 0)] :=
  ⟨rfl, rfl, rfl⟩

/-! ### Claim C6: rendering an invoice with zero line items -/

/-- C6 fails on the code: with zero line items the document ends with 2
physical pages instead of 1, no table header is ever drawn (headers are
drawn only per `pageBreaks` chunk and there is none), the Total HT box is
forced onto the freshly added page 2, and the only footer printed reads
`Page 0 / 0`; only the amount text `0.00 €` matches the claim. -/
theorem zero_items_render :
    (renderPass pdfLayout pdfInitialY []).pagesEmitted = 2 ∧
    (renderPass pdfLayout pdfInitialY []).tableHeadersDrawn = 0 ∧
    (renderPass pdfLayout pdfInitialY []).totalBoxPage = 2 ∧
    (renderPass pdfLayout pdfInitialY []).footers = [(0, 0)] ∧
    (renderPass pdfLayout pdfInitialY []).totalBoxAmountText = "0.00 €" := by
  refine ⟨rfl, rfl, rfl, rfl, ?_⟩
  show toFixed2 (calculateTotal []) ++ " €" = "0.00 €"
  rw [show calculateTotal [] = 0 from rfl, toFixed2_zero]
  rfl

/-! ### Claim C7: payment due date -/

/-- C7 counterexample: the guard `if (!terms ...)` makes the empty term
string return the formatted *current* date, not `invoiceDate + 30`: with
today 05/07/2025 and invoice date 01/03/2024, the result is `05/07/2025`
while the claimed rule gives `31/03/2024`. -/
theorem paymentDue_empty_terms :
    calculatePaymentDue ⟨2025, 7, 5⟩ ⟨2024, 3, 1⟩ "" ≠
      frFormat (addDays ⟨2024, 3, 1⟩ (termDays "")) := by
  decide

/-- C7 as amended: for every nonempty term string, `paymentDue` is the
invoice date shifted by the leading integer token of the term in calendar
days, unparseable nonempty terms defaulting to 30 (the empty term string
instead yields the current date); in particular `20 jours à réception`
on 01/03/2024 gives 21/03/2024. -/
theorem paymentDue_calendar_rule (now d : Date) (terms : String)
    (h : terms ≠ "") :
    calculatePaymentDue now d terms = frFormat (addDays d (termDays terms)) ∧
    calculatePaymentDue now ⟨2024, 3, 1⟩ "20 jours à réception" = "21/03/2024" := by
  constructor
  · simp only [calculatePaymentDue, if_neg h, termDays]
    cases hj : jsParseInt ((splitOnChar ' ' terms.data []).headD []) with
    | none => simp [hj]
    | some n => simp [hj]
  · rfl

/-- Witness for the amended C7 at the spec's concrete scenario. -/
theorem paymentDue_calendar_rule_witness :
    calculatePaymentDue ⟨2025, 7, 5⟩ ⟨2024, 3, 1⟩ "20 jours à réception" =
      frFormat (addDays ⟨2024, 3, 1⟩ (termDays "20 jours à réception")) ∧
    calculatePaymentDue ⟨2025, 7, 5⟩ ⟨2024, 3, 1⟩ "20 jours à réception" =
      "21/03/2024" :=
  paymentDue_calendar_rule ⟨2025, 7, 5⟩ ⟨2024, 3, 1⟩ "20 jours à réception"
    (by decide)

end FS
